import Mathlib

/-!
Verification of the order-assembly request pipeline of the
order-assembly-qa-automation service (Express app `server.js`).

The embedding models JavaScript JSON documents as `JValue`, the API-key
middleware `authenticateApiKey`, the structural validator
`validateOrderPayload`, the catalog enrichment loop
`enrichOrderWithMetadata`, the queue publisher `publishToSQS`, the
`uuidv4` identifier generator, and the `POST /orders/assemble` handler,
each translated from the corresponding source function.
-/

namespace OrderAssembly

/-- Model of a JavaScript value as seen by the service: JSON documents
produced by `express.json()` plus `undefined` (absent property) and `NaN`
(a value of `typeof` "number" that compares false against everything). -/
inductive JValue where
  | jundefined
  | jnull
  | jbool (b : Bool)
  | jnum (q : Rat)
  | jnan
  | jstr (s : String)
  | jarr (elems : List JValue)
  | jobj (fields : List (String × JValue))

/-- JavaScript truthiness: `undefined`, `null`, `false`, `0`, `NaN` and the
empty string are falsy; every array and object is truthy. -/
def JValue.truthy : JValue → Bool
  | .jundefined => false
  | .jnull => false
  | .jbool b => b
  | .jnum q => decide (q ≠ 0)
  | .jnan => false
  | .jstr s => decide (s ≠ "")
  | .jarr _ => true
  | .jobj _ => true

/-- JavaScript `typeof`: note `typeof null = "object"` and
`typeof NaN = "number"`. -/
def JValue.typeof : JValue → String
  | .jundefined => "undefined"
  | .jnull => "object"
  | .jbool _ => "boolean"
  | .jnum _ => "number"
  | .jnan => "number"
  | .jstr _ => "string"
  | .jarr _ => "object"
  | .jobj _ => "object"

/-- Property read on a receiver that is not `null` or `undefined`: an
absent property reads as `undefined`, as does property access on any
non-object. The full JavaScript member expression, which throws a
TypeError on a `null` or `undefined` receiver, is `JValue.getE`; this
total accessor is used only where the receiver is known non-nullish
(inside `getE`, and after validation has succeeded). -/
def JValue.get : JValue → String → JValue
  | .jobj fields, k => (fields.lookup k).getD .jundefined
  | _, _ => .jundefined

/-- Receivers on which a JavaScript property access throws: `null` and
`undefined`. -/
def JValue.nullish : JValue → Bool
  | .jnull => true
  | .jundefined => true
  | _ => false

/-- The JavaScript member expression `v.k`: accessing a property of `null`
or `undefined` throws a TypeError (carried as `.error` with the Node
message); on every other value it evaluates to `JValue.get`. -/
def JValue.getE : JValue → String → Except String JValue
  | .jnull, k => .error ("Cannot read properties of null (reading '" ++ k ++ "')")
  | .jundefined, k =>
    .error ("Cannot read properties of undefined (reading '" ++ k ++ "')")
  | v, k => .ok (v.get k)

/-- JavaScript `Array.isArray`. -/
def JValue.isArray : JValue → Bool
  | .jarr _ => true
  | _ => false

/-- Elements of an array value; `[]` for non-arrays (the handler only
iterates `payload.items` after validation has established it is a
non-empty array). -/
def JValue.asArray : JValue → List JValue
  | .jarr elems => elems
  | _ => []

/-- String content of a string value; used where the source has already
checked `typeof v === 'string'`. -/
def JValue.asString : JValue → String
  | .jstr s => s
  | _ => ""

/-- JavaScript template-literal conversion `${v}` for the value kinds the
service can actually feed into a URL or message attribute. Array and
object rendering is elided: after validation every `sku` is a non-empty
string, so those cases are unreachable in the pipeline. -/
def jsToStr : JValue → String
  | .jundefined => "undefined"
  | .jnull => "null"
  | .jbool b => if b then "true" else "false"
  | .jnum q => toString q
  | .jnan => "NaN"
  | .jstr s => s
  | .jarr _ => ""
  | .jobj _ => "[object Object]"

/-- Credential record of `VALID_API_KEYS` (server.js lines 81-92): display
name, creation time and optional expiry, times in milliseconds since the
Unix epoch as JavaScript `Date` values. -/
structure KeyData where
  name : String
  createdAtMs : Nat
  expiresAtMs : Option Nat

/-- Epoch milliseconds of `new Date('2024-01-01')`. -/
def epoch2024_01_01 : Nat := 1704067200000

/-- Epoch milliseconds of `new Date('2025-01-01')`. -/
def epoch2025_01_01 : Nat := 1735689600000

/-- Epoch milliseconds of `new Date('2026-02-28')`. -/
def epoch2026_02_28 : Nat := 1772236800000

/-- The static credential table `VALID_API_KEYS` (server.js lines 81-92). -/
def VALID_API_KEYS : List (String × KeyData) :=
  [("sk-test-valid-key-123456789",
     { name := "Test Client", createdAtMs := epoch2025_01_01, expiresAtMs := none }),
   ("sk-test-limited-key-987654321",
     { name := "Limited Client", createdAtMs := epoch2024_01_01,
       expiresAtMs := some epoch2026_02_28 })]

/-- Failure response produced by a pipeline stage: HTTP status plus the
`error` and `details` strings of the JSON body. -/
structure StageError where
  status : Nat
  error : String
  details : String

/-- Property names every object literal inherits from `Object.prototype`.
The source's credential check `VALID_API_KEYS[apiKey]` is a JavaScript
bracket lookup, which consults the prototype chain after the own keys, so
each of these header values yields a truthy value (a function, or
`Object.prototype` itself for `__proto__`). -/
def OBJECT_PROTOTYPE_KEYS : List String :=
  ["constructor", "hasOwnProperty", "isPrototypeOf", "propertyIsEnumerable",
   "toLocaleString", "toString", "valueOf", "__proto__",
   "__defineGetter__", "__defineSetter__", "__lookupGetter__", "__lookupSetter__"]

/-- Stand-in for the non-Credential value a prototype-chain hit returns:
the middleware only reads its `expiresAt`, which is `undefined` on such a
value, so the expiry check is skipped and the request is authenticated. -/
def inheritedKeyData : KeyData :=
  { name := "", createdAtMs := 0, expiresAtMs := none }

/-- The `authenticateApiKey` middleware (server.js lines 98-130).
`apiKey` is `req.headers['x-api-key']`: `none` when the header is absent,
`some s` when present with value `s`. The JavaScript guard `!apiKey` is
true for both `undefined` and the empty string. The credential lookup
`VALID_API_KEYS[apiKey]` finds the two own keys first and otherwise falls
through to the properties inherited from `Object.prototype`, which are
truthy with an `undefined` `expiresAt`, so those header values
authenticate. `nowMs` is `new Date()` at the time of the check. -/
def authenticateApiKey (nowMs : Nat) (apiKey : Option String) : Except StageError KeyData :=
  if (match apiKey with | none => true | some s => decide (s = "")) then
    .error { status := 401, error := "Unauthorized",
             details := "API key is required. Provide it in the X-API-Key header." }
  else
    match VALID_API_KEYS.lookup ((apiKey).getD "") with
    | none =>
      if (apiKey).getD "" ∈ OBJECT_PROTOTYPE_KEYS then
        .ok inheritedKeyData
      else
        .error { status := 401, error := "Unauthorized",
                 details := "Invalid API key provided." }
    | some keyData =>
      match keyData.expiresAtMs with
      | some expMs =>
        if nowMs > expMs then
          .error { status := 401, error := "Unauthorized",
                   details := "API key has expired." }
        else .ok keyData
      | none => .ok keyData

/-- Condition of `!payload.order_id || typeof payload.order_id !== 'string'`
(also used for `customer_id`): the field check of server.js lines 147-153. -/
def requiredStringInvalid (v : JValue) : Bool :=
  !v.truthy || decide (v.typeof ≠ "string")

/-- Condition of server.js line 155:
`!payload.items || !Array.isArray(payload.items) || payload.items.length === 0`. -/
def itemsFieldInvalid (v : JValue) : Bool :=
  !v.truthy || !v.isArray || decide (v.asArray.length = 0)

/-- Condition of server.js line 161: `!item.sku || typeof item.sku !== 'string'`. -/
def skuInvalid (v : JValue) : Bool :=
  !v.truthy || decide (v.typeof ≠ "string")

/-- Condition of server.js line 164:
`typeof item.quantity !== 'number' || item.quantity <= 0`. `NaN` has
`typeof` "number" and `NaN <= 0` is false, so `NaN` passes the check;
so does any fractional number greater than zero. -/
def quantityInvalid : JValue → Bool
  | .jnum q => decide (q ≤ 0)
  | .jnan => false
  | _ => true

/-- Validation message for `items[index].sku` (server.js line 162). -/
def skuMsg (index : Nat) : String :=
  "items[" ++ toString index ++ "].sku is required and must be a string"

/-- Validation message for `items[index].quantity` (server.js line 165). -/
def qtyMsg (index : Nat) : String :=
  "items[" ++ toString index ++ "].quantity must be a number greater than 0"

/-- Errors contributed by one line item (body of the `forEach` at
server.js lines 160-167). -/
def itemErrors (item : JValue) (index : Nat) : List String :=
  (if skuInvalid (item.get "sku") then [skuMsg index] else []) ++
  (if quantityInvalid (item.get "quantity") then [qtyMsg index] else [])

/-- Errors contributed by the item list starting at position `index`
(the indexed `forEach` of server.js lines 160-167). -/
def itemsErrorsFrom : List JValue → Nat → List String
  | [], _ => []
  | item :: rest, index => itemErrors item index ++ itemsErrorsFrom rest (index + 1)

/-- Error collection of the structural validator `validateOrderPayload`
(server.js lines 144-181) on inputs whose member accesses do not throw.
`dateParseOk s` models the host Date parser: it holds exactly when
`!isNaN(new Date(s).getTime())`; the source delegates timestamp validity
entirely to the JavaScript runtime, so the parser is a parameter of the
embedding. Errors are accumulated in source order; nothing
short-circuits. The full model of the source function, including the
TypeError thrown by a property access on a `null` or `undefined` item,
is `validateOrderPayloadE` below. -/
def validateOrderPayload (dateParseOk : String → Bool) (payload : JValue) : List String :=
  (if requiredStringInvalid (payload.get "order_id") then
    ["order_id is required and must be a string"] else []) ++
  (if requiredStringInvalid (payload.get "customer_id") then
    ["customer_id is required and must be a string"] else []) ++
  (if itemsFieldInvalid (payload.get "items") then
    ["items is required and must be a non-empty array"] else []) ++
  (if (payload.get "items").truthy && (payload.get "items").isArray then
    itemsErrorsFrom (payload.get "items").asArray 0 else []) ++
  (if requiredStringInvalid (payload.get "order_ts") then
    ["order_ts is required and must be a valid ISO 8601 timestamp"]
   else if !dateParseOk (payload.get "order_ts").asString then
    ["order_ts must be a valid ISO 8601 timestamp"]
   else [])

/-- One iteration of the validator's `forEach` (server.js lines 160-167)
as executed: `!item.sku` throws a TypeError when the item is `null` or
`undefined` (discarding every error collected so far); on any other item
both member accesses succeed and the iteration contributes
`itemErrors`. -/
def itemErrorsE (item : JValue) (index : Nat) : Except String (List String) :=
  match item.getE "sku" with
  | .error e => .error e
  | .ok _ => .ok (itemErrors item index)

/-- The validator's `forEach` over the item list: the first `null` or
`undefined` item throws, aborting the collection. -/
def itemsErrorsFromE : List JValue → Nat → Except String (List String)
  | [], _ => .ok []
  | item :: rest, index =>
    match itemErrorsE item index with
    | .error e => .error e
    | .ok errs =>
      match itemsErrorsFromE rest (index + 1) with
      | .error e => .error e
      | .ok tail => .ok (errs ++ tail)

/-- The structural validator `validateOrderPayload` (server.js lines
144-181) with JavaScript member-expression semantics: every property
access is a `getE`, so a `null` or `undefined` payload or item throws a
TypeError (`.error` with the Node message, in source evaluation order)
that unwinds past the collected errors; otherwise the result is the full
error collection `validateOrderPayload`. -/
def validateOrderPayloadE (dateParseOk : String → Bool) (payload : JValue) :
    Except String (List String) :=
  match payload.getE "order_id" with
  | .error e => .error e
  | .ok orderIdV =>
  match payload.getE "customer_id" with
  | .error e => .error e
  | .ok custV =>
  match payload.getE "items" with
  | .error e => .error e
  | .ok itemsV =>
  match (if itemsV.truthy && itemsV.isArray then
          itemsErrorsFromE itemsV.asArray 0
         else .ok []) with
  | .error e => .error e
  | .ok itemErrs =>
  match payload.getE "order_ts" with
  | .error e => .error e
  | .ok tsV =>
    .ok ((if requiredStringInvalid orderIdV then
           ["order_id is required and must be a string"] else []) ++
         (if requiredStringInvalid custV then
           ["customer_id is required and must be a string"] else []) ++
         (if itemsFieldInvalid itemsV then
           ["items is required and must be a non-empty array"] else []) ++
         itemErrs ++
         (if requiredStringInvalid tsV then
           ["order_ts is required and must be a valid ISO 8601 timestamp"]
          else if !dateParseOk tsV.asString then
           ["order_ts must be a valid ISO 8601 timestamp"]
          else []))

/-- Catalog URL key of an item: the source interpolates `${item.sku}` into
`GET /catalog/sku/{sku}` (server.js line 189). -/
def skuKey (item : JValue) : String := jsToStr (item.get "sku")

/-- Enriched line item pushed by `enrichOrderWithMetadata`
(server.js lines 193-197). -/
structure EnrichedItem where
  sku : JValue
  quantity : JValue
  metadata : JValue

/-- The enrichment loop `enrichOrderWithMetadata` (server.js lines 184-209).
`catalog s` is the outcome of `axios.get` on `/catalog/sku/s`:
`.ok metadata` on HTTP 200, `.error cause` on not-found, timeout or
transport error, with `cause` the `error.message` string. The loop is
sequential and the first failing lookup aborts the whole operation with a
single 502 error naming that SKU. -/
def enrichOrderWithMetadata (catalog : String → Except String JValue) :
    List JValue → Except StageError (List EnrichedItem)
  | [] => .ok []
  | item :: rest =>
    match catalog (skuKey item) with
    | .error cause =>
      .error { status := 502,
               error := "Failed to enrich item with SKU " ++ skuKey item,
               details := cause }
    | .ok md =>
      match enrichOrderWithMetadata catalog rest with
      | .error e => .error e
      | .ok tail => .ok ({ sku := item.get "sku", quantity := item.get "quantity",
                           metadata := md } :: tail)

/-- Hex digit characters used by the uuid renderer: `0`-`9` then `a`-`f`. -/
def hexDigit (n : Nat) : Char :=
  if n < 10 then Char.ofNat (48 + n) else Char.ofNat (87 + n)

/-- High hex digit of a byte. -/
def hexHi (x : Nat) : Char := hexDigit (x / 16 % 16)

/-- Low hex digit of a byte. -/
def hexLo (x : Nat) : Char := hexDigit (x % 16)

/-- Byte `i` of the 128-bit random draw `r`. -/
def uuidByte (r i : Nat) : Nat := r / 256 ^ i % 256

/-- Version-masked byte 6 of a v4 uuid: `(b & 0x0f) | 0x40`. -/
def uuidByte6 (r : Nat) : Nat := uuidByte r 6 % 16 + 64

/-- Variant-masked byte 8 of a v4 uuid: `(b & 0x3f) | 0x80`. -/
def uuidByte8 (r : Nat) : Nat := uuidByte r 8 % 64 + 128

/-- Model of `uuidv4()` from the `uuid` package (server.js line 290):
16 random bytes, drawn here from the environment's random value `r`, with
the version nibble forced to 4 and the variant bits to 10, rendered as
lowercase hyphenated hex in 8-4-4-4-12 groups. -/
def uuidv4 (r : Nat) : String :=
  String.mk
    [hexHi (uuidByte r 0), hexLo (uuidByte r 0), hexHi (uuidByte r 1), hexLo (uuidByte r 1),
     hexHi (uuidByte r 2), hexLo (uuidByte r 2), hexHi (uuidByte r 3), hexLo (uuidByte r 3),
     '-',
     hexHi (uuidByte r 4), hexLo (uuidByte r 4), hexHi (uuidByte r 5), hexLo (uuidByte r 5),
     '-',
     hexHi (uuidByte6 r), hexLo (uuidByte6 r), hexHi (uuidByte r 7), hexLo (uuidByte r 7),
     '-',
     hexHi (uuidByte8 r), hexLo (uuidByte8 r), hexHi (uuidByte r 9), hexLo (uuidByte r 9),
     '-',
     hexHi (uuidByte r 10), hexLo (uuidByte r 10), hexHi (uuidByte r 11), hexLo (uuidByte r 11),
     hexHi (uuidByte r 12), hexLo (uuidByte r 12), hexHi (uuidByte r 13), hexLo (uuidByte r 13),
     hexHi (uuidByte r 14), hexLo (uuidByte r 14), hexHi (uuidByte r 15), hexLo (uuidByte r 15)]

/-- Lowercase hexadecimal digit test. -/
def isHexChar (c : Char) : Bool :=
  (('0' ≤ c) && (c ≤ '9')) || (('a' ≤ c) && (c ≤ 'f'))

/-- Character-level shape of a standard textual UUID:
8-4-4-4-12 lowercase hex groups separated by hyphens. -/
def isUuidChars : List Char → Bool
  | u0 :: u1 :: u2 :: u3 :: u4 :: u5 :: u6 :: u7 :: g1 ::
    u8 :: u9 :: u10 :: u11 :: g2 ::
    u12 :: u13 :: u14 :: u15 :: g3 ::
    u16 :: u17 :: u18 :: u19 :: g4 ::
    u20 :: u21 :: u22 :: u23 :: u24 :: u25 :: u26 :: u27 :: u28 :: u29 :: u30 :: u31 :: [] =>
    (g1 == '-') && (g2 == '-') && (g3 == '-') && (g4 == '-') &&
    isHexChar u0 && isHexChar u1 && isHexChar u2 && isHexChar u3 &&
    isHexChar u4 && isHexChar u5 && isHexChar u6 && isHexChar u7 &&
    isHexChar u8 && isHexChar u9 && isHexChar u10 && isHexChar u11 &&
    isHexChar u12 && isHexChar u13 && isHexChar u14 && isHexChar u15 &&
    isHexChar u16 && isHexChar u17 && isHexChar u18 && isHexChar u19 &&
    isHexChar u20 && isHexChar u21 && isHexChar u22 && isHexChar u23 &&
    isHexChar u24 && isHexChar u25 && isHexChar u26 && isHexChar u27 &&
    isHexChar u28 && isHexChar u29 && isHexChar u30 && isHexChar u31
  | _ => false

/-- Standard textual UUID form of a string. -/
def isUuidForm (s : String) : Bool := isUuidChars s.data

/-- The enriched order object assembled at server.js lines 284-291. -/
structure EnrichedOrder where
  order_id : JValue
  customer_id : JValue
  items : List EnrichedItem
  order_ts : JValue
  assembled_ts : String
  assembly_id : String

/-- JSON document of an enriched item as serialized into the queue message. -/
def enrichedItemToJson (it : EnrichedItem) : JValue :=
  .jobj [("sku", it.sku), ("quantity", it.quantity), ("metadata", it.metadata)]

/-- JSON document of the enriched order as serialized into the queue message. -/
def enrichedOrderToJson (o : EnrichedOrder) : JValue :=
  .jobj [("order_id", o.order_id), ("customer_id", o.customer_id),
         ("items", .jarr (o.items.map enrichedItemToJson)),
         ("order_ts", o.order_ts),
         ("assembled_ts", .jstr o.assembled_ts),
         ("assembly_id", .jstr o.assembly_id)]

mutual

/-- Model of `JSON.stringify` (server.js line 216) on a JSON document. -/
def stringifyJ : JValue → String
  | .jundefined => "null"
  | .jnull => "null"
  | .jbool b => if b then "true" else "false"
  | .jnum q => toString q
  | .jnan => "null"
  | .jstr s => "\"" ++ s ++ "\""
  | .jarr es => "[" ++ stringifyArr es ++ "]"
  | .jobj fs => "\x7b" ++ stringifyObj fs ++ "\x7d"

/-- Comma-joined serialization of array elements. -/
def stringifyArr : List JValue → String
  | [] => ""
  | [v] => stringifyJ v
  | v :: rest => stringifyJ v ++ "," ++ stringifyArr rest

/-- Comma-joined serialization of object fields. -/
def stringifyObj : List (String × JValue) → String
  | [] => ""
  | [(k, v)] => "\"" ++ k ++ "\":" ++ stringifyJ v
  | (k, v) :: rest => "\"" ++ k ++ "\":" ++ stringifyJ v ++ "," ++ stringifyObj rest

end

/-- The queue URL constant `QUEUE_URL` (server.js line 140, default value). -/
def QUEUE_URL : String := "http://localhost:4566/000000000000/assembled-orders"

/-- One SQS message attribute: name, `StringValue` and `DataType`
(server.js lines 217-226). -/
structure MessageAttribute where
  name : String
  stringValue : JValue
  dataType : String

/-- The `params` object handed to `sqs.sendMessage` (server.js lines 214-227). -/
structure SQSParams where
  queueUrl : String
  messageBody : String
  messageAttributes : List MessageAttribute

/-- Parameters built by `publishToSQS` for an enriched order
(server.js lines 214-227): serialized body plus exactly the two
attributes `order_id` and `customer_id`. -/
def sqsMessageParams (order : EnrichedOrder) : SQSParams :=
  { queueUrl := QUEUE_URL,
    messageBody := stringifyJ (enrichedOrderToJson order),
    messageAttributes :=
      [{ name := "order_id", stringValue := order.order_id, dataType := "String" },
       { name := "customer_id", stringValue := order.customer_id, dataType := "String" }] }

/-- The queue publisher `publishToSQS` (server.js lines 212-240).
`send n params` is the transport's response to the `(n+1)`-st
`sqs.sendMessage(params)` attempt of an invocation: `.ok messageId` on
success, `.error cause` on a transport failure. The source performs
exactly one attempt (index 0) and maps its failure to a single 503
error; no retry occurs. -/
def publishToSQS (send : Nat → SQSParams → Except String String)
    (order : EnrichedOrder) : Except StageError String :=
  match send 0 (sqsMessageParams order) with
  | .ok messageId => .ok messageId
  | .error cause =>
    .error { status := 503, error := "Failed to publish order to queue", details := cause }

/-- Body of an HTTP response of the service. -/
inductive ResponseBody where
  | failure (error : String) (details : String)
  | validationFailure (error : String) (details : List String)
  | success (ok : Bool) (order_id : JValue) (assembly_id : String)
      (message : String) (sqs_message_id : String)

/-- An HTTP response: status code and JSON body. -/
structure HttpResponse where
  status : Nat
  body : ResponseBody

/-- Per-invocation environment: the ambient clock, the host Date parser,
the catalog service, the queue transport, the assembly timestamp string
and the 128-bit random draw consumed by `uuidv4`. -/
structure Env where
  nowMs : Nat
  dateParseOk : String → Bool
  catalog : String → Except String JValue
  sqsSend : Nat → SQSParams → Except String String
  assembledTs : String
  rand : Nat

/-- The `POST /orders/assemble` handler after body parsing and
authentication middleware dispatch (server.js lines 259-319): validate,
enrich, assemble with a fresh `uuidv4` identifier, publish, respond. A
TypeError thrown inside `validateOrderPayload` (a `null` or `undefined`
item) unwinds to the route's outer catch (server.js lines 312-318), which
answers 500 with `error.message` as details. -/
def assembleOrderHandler (env : Env) (apiKey : Option String) (body : JValue) : HttpResponse :=
  match authenticateApiKey env.nowMs apiKey with
  | .error e => { status := e.status, body := .failure e.error e.details }
  | .ok _ =>
    match validateOrderPayloadE env.dateParseOk body with
    | .error msg => { status := 500, body := .failure "Internal server error" msg }
    | .ok validationErrors =>
    if validationErrors.length > 0 then
      { status := 400, body := .validationFailure "Validation failed" validationErrors }
    else
      match enrichOrderWithMetadata env.catalog (body.get "items").asArray with
      | .error e => { status := e.status, body := .failure e.error e.details }
      | .ok enrichedItems =>
        let enrichedOrder : EnrichedOrder :=
          { order_id := body.get "order_id", customer_id := body.get "customer_id",
            items := enrichedItems, order_ts := body.get "order_ts",
            assembled_ts := env.assembledTs, assembly_id := uuidv4 env.rand }
        match publishToSQS env.sqsSend enrichedOrder with
        | .error e => { status := e.status, body := .failure e.error e.details }
        | .ok sqsMessageId =>
          { status := 200,
            body := .success true (body.get "order_id") enrichedOrder.assembly_id
              "Order assembled and published successfully" sqsMessageId }

/-- Request body as it leaves the `express.json()` middleware
(server.js line 95): either a parsed JSON document or a parse failure
carrying the parser's error message. -/
inductive RequestBody where
  | parsed (document : JValue)
  | malformed (parseErrorMsg : String)

/-- The service boundary for `POST /orders/assemble`. `express.json()`
runs before the route (server.js line 95), so a body that fails JSON
parsing raises before authentication; the error reaches the
error-handling middleware (server.js lines 324-330), which always
answers 500 with the error message as `details`. A parsed document
proceeds to the authenticated handler. -/
def orderAssemblyService (env : Env) (apiKey : Option String) (body : RequestBody) : HttpResponse :=
  match body with
  | .malformed msg => { status := 500, body := .failure "Internal server error" msg }
  | .parsed doc => assembleOrderHandler env apiKey doc

/-- Number of violated validation rules of §4.2 of the spec, one count per
rule instance, with each leaf condition exactly as implemented: the four
top-level field rules plus the two per-item rules of every item. -/
def itemViolationCount : List JValue → Nat
  | [] => 0
  | item :: rest =>
    (if skuInvalid (item.get "sku") then 1 else 0) +
    (if quantityInvalid (item.get "quantity") then 1 else 0) +
    itemViolationCount rest

/-- Total number of violated validation rules of a payload. -/
def ruleViolationCount (dateParseOk : String → Bool) (payload : JValue) : Nat :=
  (if requiredStringInvalid (payload.get "order_id") then 1 else 0) +
  (if requiredStringInvalid (payload.get "customer_id") then 1 else 0) +
  (if itemsFieldInvalid (payload.get "items") then 1 else 0) +
  (if (payload.get "items").truthy && (payload.get "items").isArray then
    itemViolationCount (payload.get "items").asArray else 0) +
  (if requiredStringInvalid (payload.get "order_ts") then 1
   else if !dateParseOk (payload.get "order_ts").asString then 1
   else 0)

/-- Demo line item of the spec's concrete scenario:
`{sku:"SKU100", quantity:2}`. -/
def demoItem : JValue := .jobj [("sku", .jstr "SKU100"), ("quantity", .jnum 2)]

/-- Demo payload of the spec's concrete scenario. -/
def demoPayload : JValue :=
  .jobj [("order_id", .jstr "O1"), ("customer_id", .jstr "C1"),
         ("items", .jarr [demoItem]), ("order_ts", .jstr "2025-01-31T10:00:00Z")]

/-- Line item with the fractional quantity `2.5`. -/
def fracItem : JValue := .jobj [("sku", .jstr "SKU100"), ("quantity", .jnum (mkRat 5 2))]

/-- Payload identical to `demoPayload` except for a fractional quantity. -/
def fracPayload : JValue :=
  .jobj [("order_id", .jstr "O1"), ("customer_id", .jstr "C1"),
         ("items", .jarr [fracItem]), ("order_ts", .jstr "2025-01-31T10:00:00Z")]

/-- Payload violating two validation rules at once: no `customer_id` and an
empty `items` array. -/
def doublyBadPayload : JValue :=
  .jobj [("order_id", .jstr "O1"), ("items", .jarr []),
         ("order_ts", .jstr "2025-01-31T10:00:00Z")]

/-- Payload violating several validation rules (empty `order_id` and
`customer_id`) whose item list contains `null`, so the validator's
`forEach` throws at that item. -/
def nullItemPayload : JValue :=
  .jobj [("order_id", .jstr ""), ("customer_id", .jstr ""),
         ("items", .jarr [.jnull]), ("order_ts", .jstr "2025-01-31T10:00:00Z")]

/-- Catalog stub that resolves every SKU. -/
def demoCatalog : String → Except String JValue :=
  fun s => .ok (.jobj [("sku", .jstr s), ("name", .jstr "Widget")])

/-- Catalog stub that fails exactly on `INVALID_SKU` with an axios-style
cause. -/
def failingCatalog : String → Except String JValue :=
  fun s => if s = "INVALID_SKU" then .error "Request failed with status code 404"
           else .ok (.jobj [("sku", .jstr s)])

/-- Queue transport stub that accepts every message. -/
def demoSend : Nat → SQSParams → Except String String :=
  fun _ _ => .ok "demo-message-id"

/-- Queue transport stub that refuses every message. -/
def failingSend : Nat → SQSParams → Except String String :=
  fun _ _ => .error "connect ECONNREFUSED 127.0.0.1:4566"

/-- Host Date parser stub accepting every string (the demo timestamps all
parse in the reference runtime). -/
def demoParseOk : String → Bool := fun _ => true

/-- Demo environment on 2025-01-31 with a healthy catalog and queue. -/
def demoEnv : Env :=
  { nowMs := epoch2025_01_01, dateParseOk := demoParseOk, catalog := demoCatalog,
    sqsSend := demoSend, assembledTs := "2025-01-31T10:00:01.000Z", rand := 0 }

/-- Demo environment whose random draw differs from `demoEnv`. -/
def demoEnv2 : Env :=
  { nowMs := epoch2025_01_01, dateParseOk := demoParseOk, catalog := demoCatalog,
    sqsSend := demoSend, assembledTs := "2025-01-31T10:00:02.000Z", rand := 1 }

/-- Demo environment with an unreachable queue transport. -/
def queueDownEnv : Env :=
  { nowMs := epoch2025_01_01, dateParseOk := demoParseOk, catalog := demoCatalog,
    sqsSend := failingSend, assembledTs := "2025-01-31T10:00:01.000Z", rand := 0 }

/-- Demo environment with the partially failing catalog. -/
def skuDownEnv : Env :=
  { nowMs := epoch2025_01_01, dateParseOk := demoParseOk, catalog := failingCatalog,
    sqsSend := demoSend, assembledTs := "2025-01-31T10:00:01.000Z", rand := 0 }

/-- The always-valid demo credential string. -/
def demoKey : String := "sk-test-valid-key-123456789"

/-- Assembly identifier carried by a success response, if any. -/
def assemblyIdOf (r : HttpResponse) : Option String :=
  match r.body with
  | .success _ _ aid _ _ => some aid
  | _ => none

/-- Line item with quantity zero. -/
def zeroQtyItem : JValue := .jobj [("sku", .jstr "SKU100"), ("quantity", .jnum 0)]

/-- Payload identical to `demoPayload` except for a zero quantity. -/
def zeroQtyPayload : JValue :=
  .jobj [("order_id", .jstr "O1"), ("customer_id", .jstr "C1"),
         ("items", .jarr [zeroQtyItem]), ("order_ts", .jstr "2025-01-31T10:00:00Z")]

/-- Line item whose SKU the failing catalog cannot resolve. -/
def invalidSkuItem : JValue := .jobj [("sku", .jstr "INVALID_SKU"), ("quantity", .jnum 1)]

/-- Payload whose second line item has an unresolvable SKU. -/
def invalidSkuPayload : JValue :=
  .jobj [("order_id", .jstr "O1"), ("customer_id", .jstr "C1"),
         ("items", .jarr [demoItem, invalidSkuItem]),
         ("order_ts", .jstr "2025-01-31T10:00:00Z")]

lemma isHexChar_hexDigit : ∀ m : Fin 16, isHexChar (hexDigit m.val) = true := by
  decide

lemma isHexChar_hexDigit_mod (n : Nat) : isHexChar (hexDigit (n % 16)) = true :=
  isHexChar_hexDigit ⟨n % 16, Nat.mod_lt n (by decide)⟩

lemma isHexChar_hexHi (x : Nat) : isHexChar (hexHi x) = true :=
  isHexChar_hexDigit_mod (x / 16)

lemma isHexChar_hexLo (x : Nat) : isHexChar (hexLo x) = true :=
  isHexChar_hexDigit_mod x

lemma uuidv4_isUuidForm (r : Nat) : isUuidForm (uuidv4 r) = true := by
  simp [isUuidForm, uuidv4, isUuidChars, isHexChar_hexHi, isHexChar_hexLo]

lemma itemsErrorsFrom_length (xs : List JValue) :
    ∀ base, (itemsErrorsFrom xs base).length = itemViolationCount xs := by
  induction xs with
  | nil => intro base; rfl
  | cons item rest ih =>
    intro base
    cases h1 : skuInvalid (item.get "sku") <;>
      cases h2 : quantityInvalid (item.get "quantity") <;>
        simp [itemsErrorsFrom, itemErrors, itemViolationCount, h1, h2, ih] <;> omega

lemma validateOrderPayload_length (pk : String → Bool) (p : JValue) :
    (validateOrderPayload pk p).length = ruleViolationCount pk p := by
  cases h1 : requiredStringInvalid (p.get "order_id") <;>
    cases h2 : requiredStringInvalid (p.get "customer_id") <;>
      cases h3 : itemsFieldInvalid (p.get "items") <;>
        cases h4 : (p.get "items").truthy && (p.get "items").isArray <;>
          cases h5 : requiredStringInvalid (p.get "order_ts") <;>
            cases h6 : pk (p.get "order_ts").asString <;>
              simp [validateOrderPayload, ruleViolationCount, h1, h2, h3, h4, h5, h6,
                itemsErrorsFrom_length] <;> omega

lemma orderId_msg_mem (pk : String → Bool) (p : JValue)
    (h : requiredStringInvalid (p.get "order_id") = true) :
    "order_id is required and must be a string" ∈ validateOrderPayload pk p := by
  simp [validateOrderPayload, h]

lemma customerId_msg_mem (pk : String → Bool) (p : JValue)
    (h : requiredStringInvalid (p.get "customer_id") = true) :
    "customer_id is required and must be a string" ∈ validateOrderPayload pk p := by
  simp [validateOrderPayload, h]

lemma items_msg_mem (pk : String → Bool) (p : JValue)
    (h : itemsFieldInvalid (p.get "items") = true) :
    "items is required and must be a non-empty array" ∈ validateOrderPayload pk p := by
  simp [validateOrderPayload, h]

lemma ts_missing_msg_mem (pk : String → Bool) (p : JValue)
    (h : requiredStringInvalid (p.get "order_ts") = true) :
    "order_ts is required and must be a valid ISO 8601 timestamp" ∈ validateOrderPayload pk p := by
  simp [validateOrderPayload, h]

lemma ts_invalid_msg_mem (pk : String → Bool) (p : JValue)
    (h : requiredStringInvalid (p.get "order_ts") = false)
    (h2 : pk (p.get "order_ts").asString = false) :
    "order_ts must be a valid ISO 8601 timestamp" ∈ validateOrderPayload pk p := by
  simp [validateOrderPayload, h, h2]

lemma sku_msg_mem_from (xs : List JValue) :
    ∀ (base j : Nat) (hj : j < xs.length),
      skuInvalid ((xs.get ⟨j, hj⟩).get "sku") = true →
      skuMsg (base + j) ∈ itemsErrorsFrom xs base := by
  induction xs with
  | nil => intro base j hj; exact absurd hj (by simp)
  | cons item rest ih =>
    intro base j hj h
    cases j with
    | zero =>
      have h0 : skuInvalid (item.get "sku") = true := h
      simp [itemsErrorsFrom, itemErrors, h0]
    | succ j =>
      have hj2 : j < rest.length := by simpa [Nat.succ_lt_succ_iff] using hj
      have h2 : skuInvalid ((rest.get ⟨j, hj2⟩).get "sku") = true := h
      have hmem := ih (base + 1) j hj2 h2
      have heq : skuMsg (base + (j + 1)) = skuMsg (base + 1 + j) := by
        have : base + (j + 1) = base + 1 + j := by omega
        rw [this]
      rw [heq]
      exact List.mem_append_right _ hmem

lemma qty_msg_mem_from (xs : List JValue) :
    ∀ (base j : Nat) (hj : j < xs.length),
      quantityInvalid ((xs.get ⟨j, hj⟩).get "quantity") = true →
      qtyMsg (base + j) ∈ itemsErrorsFrom xs base := by
  induction xs with
  | nil => intro base j hj; exact absurd hj (by simp)
  | cons item rest ih =>
    intro base j hj h
    cases j with
    | zero =>
      have h0 : quantityInvalid (item.get "quantity") = true := h
      simp [itemsErrorsFrom, itemErrors, h0]
    | succ j =>
      have hj2 : j < rest.length := by simpa [Nat.succ_lt_succ_iff] using hj
      have h2 : quantityInvalid ((rest.get ⟨j, hj2⟩).get "quantity") = true := h
      have hmem := ih (base + 1) j hj2 h2
      have heq : qtyMsg (base + (j + 1)) = qtyMsg (base + 1 + j) := by
        have : base + (j + 1) = base + 1 + j := by omega
        rw [this]
      rw [heq]
      exact List.mem_append_right _ hmem

lemma sku_msg_mem (pk : String → Bool) (p : JValue) (xs : List JValue) (j : Nat)
    (hxs : p.get "items" = .jarr xs) (hj : j < xs.length)
    (h : skuInvalid ((xs.get ⟨j, hj⟩).get "sku") = true) :
    skuMsg j ∈ validateOrderPayload pk p := by
  have hmem : skuMsg (0 + j) ∈ itemsErrorsFrom xs 0 := sku_msg_mem_from xs 0 j hj h
  rw [Nat.zero_add] at hmem
  simp [validateOrderPayload, hxs, JValue.truthy, JValue.isArray, JValue.asArray, hmem]

lemma qty_msg_mem (pk : String → Bool) (p : JValue) (xs : List JValue) (j : Nat)
    (hxs : p.get "items" = .jarr xs) (hj : j < xs.length)
    (h : quantityInvalid ((xs.get ⟨j, hj⟩).get "quantity") = true) :
    qtyMsg j ∈ validateOrderPayload pk p := by
  have hmem : qtyMsg (0 + j) ∈ itemsErrorsFrom xs 0 := qty_msg_mem_from xs 0 j hj h
  rw [Nat.zero_add] at hmem
  simp [validateOrderPayload, hxs, JValue.truthy, JValue.isArray, JValue.asArray, hmem]

lemma getE_ok (v : JValue) (k : String) (h : v.nullish = false) :
    v.getE k = .ok (v.get k) := by
  cases v with
  | jnull => exact absurd h (by simp [JValue.nullish])
  | jundefined => exact absurd h (by simp [JValue.nullish])
  | jbool b => rfl
  | jnum q => rfl
  | jnan => rfl
  | jstr s => rfl
  | jarr es => rfl
  | jobj fs => rfl

lemma itemsErrorsFromE_ok (xs : List JValue) :
    ∀ base, (∀ it ∈ xs, it.nullish = false) →
      itemsErrorsFromE xs base = .ok (itemsErrorsFrom xs base) := by
  induction xs with
  | nil => intro base _; rfl
  | cons item rest ih =>
    intro base h
    have hitem := getE_ok item "sku" (h item (by simp))
    have htail := ih (base + 1) (fun it hit => h it (by simp [hit]))
    simp [itemsErrorsFromE, itemErrorsE, hitem, htail, itemsErrorsFrom]

lemma validateOrderPayloadE_ok (pk : String → Bool) (p : JValue)
    (hp : p.nullish = false)
    (hnn : ∀ it ∈ (p.get "items").asArray, it.nullish = false) :
    validateOrderPayloadE pk p = .ok (validateOrderPayload pk p) := by
  have h1 := getE_ok p "order_id" hp
  have h2 := getE_ok p "customer_id" hp
  have h3 := getE_ok p "items" hp
  have h4 := getE_ok p "order_ts" hp
  cases hguard : (p.get "items").truthy && (p.get "items").isArray with
  | true =>
    have hitems := itemsErrorsFromE_ok (p.get "items").asArray 0 hnn
    simp [validateOrderPayloadE, validateOrderPayload, h1, h2, h3, h4, hguard, hitems]
  | false =>
    simp [validateOrderPayloadE, validateOrderPayload, h1, h2, h3, h4, hguard]

lemma enrich_all_ok (catalog : String → Except String JValue) (m : JValue → JValue) :
    ∀ items : List JValue, (∀ it ∈ items, catalog (skuKey it) = .ok (m it)) →
      enrichOrderWithMetadata catalog items =
        .ok (items.map fun it =>
          { sku := it.get "sku", quantity := it.get "quantity", metadata := m it }) := by
  intro items
  induction items with
  | nil => intro _; rfl
  | cons item rest ih =>
    intro h
    have hhead := h item (by simp)
    have htail := ih (fun it hit => h it (by simp [hit]))
    simp [enrichOrderWithMetadata, hhead, htail]

lemma enrich_ok_elim (catalog : String → Except String JValue) :
    ∀ (items : List JValue) (es : List EnrichedItem),
      enrichOrderWithMetadata catalog items = .ok es →
      es.length = items.length ∧
      ∀ (j : Nat) (hj : j < items.length) (hj2 : j < es.length),
        (es.get ⟨j, hj2⟩).sku = (items.get ⟨j, hj⟩).get "sku" ∧
        (es.get ⟨j, hj2⟩).quantity = (items.get ⟨j, hj⟩).get "quantity" ∧
        catalog (skuKey (items.get ⟨j, hj⟩)) = .ok (es.get ⟨j, hj2⟩).metadata := by
  intro items
  induction items with
  | nil =>
    intro es h
    have hes : es = [] := by
      simpa [enrichOrderWithMetadata] using h.symm
    subst hes
    exact ⟨rfl, fun j hj => absurd hj (by simp)⟩
  | cons item rest ih =>
    intro es h
    cases hc : catalog (skuKey item) with
    | error c => rw [enrichOrderWithMetadata, hc] at h; exact absurd h (by simp)
    | ok md =>
      rw [enrichOrderWithMetadata, hc] at h
      cases hr : enrichOrderWithMetadata catalog rest with
      | error e => rw [hr] at h; exact absurd h (by simp)
      | ok tail =>
        rw [hr] at h
        have hes : es = { sku := item.get "sku", quantity := item.get "quantity",
                          metadata := md } :: tail := by
          simpa using h.symm
        subst hes
        obtain ⟨hlen, hfacts⟩ := ih tail hr
        refine ⟨by simp [hlen], ?_⟩
        intro j hj hj2
        cases j with
        | zero => exact ⟨rfl, rfl, by simpa using hc⟩
        | succ j =>
          exact hfacts j (by simpa [Nat.succ_lt_succ_iff] using hj)
            (by simpa [Nat.succ_lt_succ_iff] using hj2)

lemma enrich_first_err (catalog : String → Except String JValue)
    (bad : JValue) (cause : String) (rest : List JValue)
    (hbad : catalog (skuKey bad) = .error cause) :
    ∀ pre : List JValue, (∀ it ∈ pre, ∃ v, catalog (skuKey it) = .ok v) →
      enrichOrderWithMetadata catalog (pre ++ bad :: rest) =
        .error { status := 502,
                 error := "Failed to enrich item with SKU " ++ skuKey bad,
                 details := cause } := by
  intro pre
  induction pre with
  | nil => intro _; simp [enrichOrderWithMetadata, hbad]
  | cons p ps ih =>
    intro h
    obtain ⟨v, hv⟩ := h p (by simp)
    have htail := ih (fun it hit => h it (by simp [hit]))
    simp [enrichOrderWithMetadata, hv, htail]

/-- C1: for every request that authenticates, whose payload passes
validation, whose every SKU lookup succeeds, and whose queue publish
succeeds, the pipeline returns HTTP 200 with a body containing
`success = true`, the input payload's `order_id`, an `assembly_id` in
standard textual UUID form, a message string, and the queue-assigned
`sqs_message_id`. -/
theorem pipeline_success_response (env : Env) (apiKey : Option String) (kd : KeyData)
    (body : JValue) (m : JValue → JValue) (msgId : String)
    (hauth : authenticateApiKey env.nowMs apiKey = .ok kd)
    (hval : validateOrderPayloadE env.dateParseOk body = .ok [])
    (hcat : ∀ it ∈ (body.get "items").asArray, env.catalog (skuKey it) = .ok (m it))
    (hsend : ∀ p, env.sqsSend 0 p = .ok msgId) :
    orderAssemblyService env apiKey (.parsed body) =
      { status := 200,
        body := .success true (body.get "order_id") (uuidv4 env.rand)
          "Order assembled and published successfully" msgId } ∧
    isUuidForm (uuidv4 env.rand) = true := by
  refine ⟨?_, uuidv4_isUuidForm env.rand⟩
  have henr := enrich_all_ok env.catalog m (body.get "items").asArray hcat
  simp [orderAssemblyService, assembleOrderHandler, hauth, hval, henr, publishToSQS, hsend]

/-- Witness for C1 at the spec's concrete scenario, with a healthy catalog
and queue. -/
theorem pipeline_success_response_witness :
    orderAssemblyService demoEnv (some demoKey) (.parsed demoPayload) =
      { status := 200,
        body := .success true (.jstr "O1") (uuidv4 0)
          "Order assembled and published successfully" "demo-message-id" } ∧
    isUuidForm (uuidv4 0) = true :=
  pipeline_success_response demoEnv (some demoKey)
    { name := "Test Client", createdAtMs := epoch2025_01_01, expiresAtMs := none }
    demoPayload
    (fun it => .jobj [("sku", .jstr (jsToStr (it.get "sku"))), ("name", .jstr "Widget")])
    "demo-message-id" rfl rfl (fun _ _ => rfl) (fun _ => rfl)

/-- C2 counterexample: the key "constructor" is unknown (it matches no
configured credential), yet the bracket lookup finds the inherited
`Object.prototype.constructor`, a truthy value with `undefined`
`expiresAt`, so the middleware authenticates the request and validation
runs: an invalid payload is answered 400, not 401. -/
theorem prototype_key_authenticated :
    VALID_API_KEYS.lookup "constructor" = none ∧
    authenticateApiKey demoEnv.nowMs (some "constructor") = .ok inheritedKeyData ∧
    (orderAssemblyService demoEnv (some "constructor")
      (.parsed doublyBadPayload)).status = 400 :=
  ⟨rfl, rfl, rfl⟩

/-- C2 as amended: for every request whose API key is absent, expired, or
unknown and not the name of a property inherited from `Object.prototype`,
the pipeline responds 401 with a response that does not depend on the
payload at all, so no validation outcome is ever reported in place of the
auth failure; unknown keys naming `Object.prototype` properties are
instead authenticated by the bracket lookup and proceed to validation. -/
theorem auth_gate_401 (env : Env) (apiKey : Option String)
    (h : apiKey = none ∨
         (∃ k, apiKey = some k ∧ k ≠ "" ∧ VALID_API_KEYS.lookup k = none ∧
            k ∉ OBJECT_PROTOTYPE_KEYS) ∨
         (∃ k kd expMs, apiKey = some k ∧ k ≠ "" ∧
            VALID_API_KEYS.lookup k = some kd ∧
            kd.expiresAtMs = some expMs ∧ env.nowMs > expMs)) :
    ∃ d, ∀ doc : JValue,
      orderAssemblyService env apiKey (.parsed doc) =
        { status := 401, body := .failure "Unauthorized" d } := by
  rcases h with h | ⟨k, hk, hne, hlk, hproto⟩ | ⟨k, kd, expMs, hk, hne, hlk, hexp, hnow⟩
  · subst h
    exact ⟨"API key is required. Provide it in the X-API-Key header.",
      fun doc => by simp [orderAssemblyService, assembleOrderHandler, authenticateApiKey]⟩
  · subst hk
    exact ⟨"Invalid API key provided.",
      fun doc => by
        simp [orderAssemblyService, assembleOrderHandler, authenticateApiKey, hne, hlk,
          hproto]⟩
  · subst hk
    exact ⟨"API key has expired.",
      fun doc => by
        simp [orderAssemblyService, assembleOrderHandler, authenticateApiKey, hne, hlk,
          hexp, hnow]⟩

/-- Witness for C2: an unknown key that names no Object.prototype property,
with a payload that has validation errors, still yields 401, never 400. -/
theorem auth_gate_401_witness :
    (orderAssemblyService demoEnv (some "sk-bogus-key") (.parsed doublyBadPayload)).status = 401 ∧
    validateOrderPayload demoEnv.dateParseOk doublyBadPayload ≠ [] := by
  obtain ⟨d, hd⟩ := auth_gate_401 demoEnv (some "sk-bogus-key")
    (Or.inr (Or.inl ⟨"sk-bogus-key", rfl, by decide, rfl, by decide⟩))
  rw [hd doublyBadPayload]
  exact ⟨rfl, by decide⟩

/-- C3 counterexample: a payload violating several validation rules
(empty `order_id` and `customer_id`) whose items contain `null` is not
answered 400 with the full details list: the validator's `forEach` throws
a TypeError at the null item and the route's catch answers 500. -/
theorem null_item_answered_500 :
    requiredStringInvalid (nullItemPayload.get "order_id") = true ∧
    requiredStringInvalid (nullItemPayload.get "customer_id") = true ∧
    orderAssemblyService demoEnv (some demoKey) (.parsed nullItemPayload) =
      { status := 500,
        body := .failure "Internal server error"
          "Cannot read properties of null (reading 'sku')" } :=
  ⟨rfl, rfl, rfl⟩

/-- C3 as amended: on every structured payload that is not nullish and
whose items are all non-nullish (so no member access throws), validation
is exhaustive, not fail-fast: the details list has exactly one entry per
violated rule (the list length equals the number of violated rule
instances, and every violated rule contributes its message), and whenever
validation fails on an authenticated request the pipeline responds 400
with that non-empty list; a payload containing a nullish item instead
throws inside the validator and is answered 500. -/
theorem validation_exhaustive (env : Env) (apiKey : Option String) (payload : JValue)
    (hp : payload.nullish = false)
    (hnn : ∀ it ∈ (payload.get "items").asArray, it.nullish = false) :
    (validateOrderPayload env.dateParseOk payload).length =
      ruleViolationCount env.dateParseOk payload
    ∧ (requiredStringInvalid (payload.get "order_id") = true →
        "order_id is required and must be a string" ∈
          validateOrderPayload env.dateParseOk payload)
    ∧ (requiredStringInvalid (payload.get "customer_id") = true →
        "customer_id is required and must be a string" ∈
          validateOrderPayload env.dateParseOk payload)
    ∧ (itemsFieldInvalid (payload.get "items") = true →
        "items is required and must be a non-empty array" ∈
          validateOrderPayload env.dateParseOk payload)
    ∧ (∀ (xs : List JValue) (j : Nat), payload.get "items" = .jarr xs →
        ∀ hj : j < xs.length,
        skuInvalid ((xs.get ⟨j, hj⟩).get "sku") = true →
        skuMsg j ∈ validateOrderPayload env.dateParseOk payload)
    ∧ (∀ (xs : List JValue) (j : Nat), payload.get "items" = .jarr xs →
        ∀ hj : j < xs.length,
        quantityInvalid ((xs.get ⟨j, hj⟩).get "quantity") = true →
        qtyMsg j ∈ validateOrderPayload env.dateParseOk payload)
    ∧ (requiredStringInvalid (payload.get "order_ts") = true →
        "order_ts is required and must be a valid ISO 8601 timestamp" ∈
          validateOrderPayload env.dateParseOk payload)
    ∧ (requiredStringInvalid (payload.get "order_ts") = false →
        env.dateParseOk (payload.get "order_ts").asString = false →
        "order_ts must be a valid ISO 8601 timestamp" ∈
          validateOrderPayload env.dateParseOk payload)
    ∧ (∀ kd, authenticateApiKey env.nowMs apiKey = .ok kd →
        validateOrderPayload env.dateParseOk payload ≠ [] →
        orderAssemblyService env apiKey (.parsed payload) =
          { status := 400,
            body := .validationFailure "Validation failed"
              (validateOrderPayload env.dateParseOk payload) }) := by
  refine ⟨validateOrderPayload_length _ _,
    fun h => orderId_msg_mem _ _ h,
    fun h => customerId_msg_mem _ _ h,
    fun h => items_msg_mem _ _ h,
    fun xs j hxs hj h => sku_msg_mem _ _ xs j hxs hj h,
    fun xs j hxs hj h => qty_msg_mem _ _ xs j hxs hj h,
    fun h => ts_missing_msg_mem _ _ h,
    fun h h2 => ts_invalid_msg_mem _ _ h h2,
    ?_⟩
  intro kd hauth hne
  have hbridge := validateOrderPayloadE_ok env.dateParseOk payload hp hnn
  have hpos : 0 < (validateOrderPayload env.dateParseOk payload).length :=
    List.length_pos.mpr hne
  simp [orderAssemblyService, assembleOrderHandler, hauth, hbridge, hpos]

/-- Witness for C3: a payload missing `customer_id` and with empty `items`
violates two rules, gets both entries, and is rejected 400. -/
theorem validation_exhaustive_witness :
    (validateOrderPayload demoEnv.dateParseOk doublyBadPayload).length =
      ruleViolationCount demoEnv.dateParseOk doublyBadPayload ∧
    orderAssemblyService demoEnv (some demoKey) (.parsed doublyBadPayload) =
      { status := 400,
        body := .validationFailure "Validation failed"
          (validateOrderPayload demoEnv.dateParseOk doublyBadPayload) } :=
  ⟨(validation_exhaustive demoEnv (some demoKey) doublyBadPayload rfl (by decide)).1,
   (validation_exhaustive demoEnv (some demoKey) doublyBadPayload rfl
       (by decide)).2.2.2.2.2.2.2.2
     { name := "Test Client", createdAtMs := epoch2025_01_01, expiresAtMs := none }
     rfl (by decide)⟩

/-- C4 counterexample: the fractional quantity `2.5` (not an integer
strictly greater than zero) passes validation and the order is accepted
with 200, contradicting the claim that such an order is rejected 400. -/
theorem quantity_fractional_accepted :
    (mkRat 5 2).den ≠ 1 ∧
    quantityInvalid (fracItem.get "quantity") = false ∧
    validateOrderPayload demoParseOk fracPayload = [] ∧
    (orderAssemblyService demoEnv (some demoKey) (.parsed fracPayload)).status = 200 := by
  refine ⟨by decide, by decide, by decide, rfl⟩

/-- C4 as amended: on a non-nullish payload whose items are all
non-nullish (so the validator does not throw), an item whose quantity
fails the implemented check (missing, non-numeric by `typeof`, or a number
less than or equal to zero) produces a per-item validation error and, on
an authenticated request, the whole order is rejected with 400; fractional
quantities above zero and `NaN` pass the check. -/
theorem quantity_rule_enforced (env : Env) (apiKey : Option String) (kd : KeyData)
    (payload : JValue) (xs : List JValue) (j : Nat)
    (hp : payload.nullish = false)
    (hnn : ∀ it ∈ (payload.get "items").asArray, it.nullish = false)
    (hxs : payload.get "items" = .jarr xs) (hj : j < xs.length)
    (hq : quantityInvalid ((xs.get ⟨j, hj⟩).get "quantity") = true)
    (hauth : authenticateApiKey env.nowMs apiKey = .ok kd) :
    qtyMsg j ∈ validateOrderPayload env.dateParseOk payload ∧
    orderAssemblyService env apiKey (.parsed payload) =
      { status := 400,
        body := .validationFailure "Validation failed"
          (validateOrderPayload env.dateParseOk payload) } := by
  have hmem := qty_msg_mem env.dateParseOk payload xs j hxs hj hq
  refine ⟨hmem, ?_⟩
  have hne : validateOrderPayload env.dateParseOk payload ≠ [] := by
    intro hcon
    rw [hcon] at hmem
    exact absurd hmem (by simp)
  have hbridge := validateOrderPayloadE_ok env.dateParseOk payload hp hnn
  have hpos : 0 < (validateOrderPayload env.dateParseOk payload).length :=
    List.length_pos.mpr hne
  simp [orderAssemblyService, assembleOrderHandler, hauth, hbridge, hpos]

/-- Witness for the amended C4 at quantity zero. -/
theorem quantity_rule_enforced_witness :
    qtyMsg 0 ∈ validateOrderPayload demoEnv.dateParseOk zeroQtyPayload ∧
    orderAssemblyService demoEnv (some demoKey) (.parsed zeroQtyPayload) =
      { status := 400,
        body := .validationFailure "Validation failed"
          (validateOrderPayload demoEnv.dateParseOk zeroQtyPayload) } :=
  quantity_rule_enforced demoEnv (some demoKey)
    { name := "Test Client", createdAtMs := epoch2025_01_01, expiresAtMs := none }
    zeroQtyPayload [zeroQtyItem] 0 rfl (by decide) rfl (by decide) (by decide) rfl

/-- C10: a request supplying the `x-api-key` header with the empty string
is rejected 401 with the missing-key details string, because the JavaScript
presence check `!apiKey` treats the empty string as absent. -/
theorem empty_api_key_missing (env : Env) (doc : JValue) :
    orderAssemblyService env (some "") (.parsed doc) =
      { status := 401,
        body := .failure "Unauthorized"
          "API key is required. Provide it in the X-API-Key header." } := by
  simp [orderAssemblyService, assembleOrderHandler, authenticateApiKey]

/-- C5: when every catalog lookup succeeds, enrichment returns exactly one
enriched item per input item, in input order, preserving each item's `sku`
and `quantity` and carrying its lookup's metadata; and whenever enrichment
returns a list, every enriched item's own lookup succeeded with exactly
its metadata. -/
theorem enrichment_preserves_items (catalog : String → Except String JValue)
    (items : List JValue) :
    (∀ m : JValue → JValue,
      (∀ it ∈ items, catalog (skuKey it) = .ok (m it)) →
      enrichOrderWithMetadata catalog items =
        .ok (items.map fun it =>
          { sku := it.get "sku", quantity := it.get "quantity", metadata := m it }))
    ∧ (∀ es, enrichOrderWithMetadata catalog items = .ok es →
        es.length = items.length ∧
        ∀ (j : Nat) (hj : j < items.length) (hj2 : j < es.length),
          (es.get ⟨j, hj2⟩).sku = (items.get ⟨j, hj⟩).get "sku" ∧
          (es.get ⟨j, hj2⟩).quantity = (items.get ⟨j, hj⟩).get "quantity" ∧
          catalog (skuKey (items.get ⟨j, hj⟩)) = .ok (es.get ⟨j, hj2⟩).metadata) :=
  ⟨fun m h => enrich_all_ok catalog m items h,
   fun es h => enrich_ok_elim catalog items es h⟩

/-- Witness for C5 on the demo item under the healthy catalog. -/
theorem enrichment_preserves_items_witness :
    enrichOrderWithMetadata demoCatalog [demoItem] =
      .ok [{ sku := .jstr "SKU100", quantity := .jnum 2,
             metadata := .jobj [("sku", .jstr "SKU100"), ("name", .jstr "Widget")] }] :=
  (enrichment_preserves_items demoCatalog [demoItem]).1
    (fun it => .jobj [("sku", .jstr (jsToStr (it.get "sku"))), ("name", .jstr "Widget")])
    (fun _ _ => rfl)

/-- C6: an authenticated, validated order whose item list contains a first
item with a failing catalog lookup is answered 502 with the single error
message naming that SKU and the lookup's cause, regardless of the
remaining items. -/
theorem enrichment_failure_502 (env : Env) (apiKey : Option String) (kd : KeyData)
    (body : JValue) (pre : List JValue) (bad : JValue) (rest : List JValue) (cause : String)
    (hauth : authenticateApiKey env.nowMs apiKey = .ok kd)
    (hval : validateOrderPayloadE env.dateParseOk body = .ok [])
    (hitems : body.get "items" = .jarr (pre ++ bad :: rest))
    (hpre : ∀ it ∈ pre, ∃ v, env.catalog (skuKey it) = .ok v)
    (hbad : env.catalog (skuKey bad) = .error cause) :
    orderAssemblyService env apiKey (.parsed body) =
      { status := 502,
        body := .failure ("Failed to enrich item with SKU " ++ skuKey bad) cause } := by
  have henr := enrich_first_err env.catalog bad cause rest hbad pre hpre
  simp [orderAssemblyService, assembleOrderHandler, hauth, hval, hitems,
    JValue.asArray, henr]

/-- Witness for C6: the payload whose second item has SKU `INVALID_SKU`
fails with 502 naming that SKU even though the first item resolves. -/
theorem enrichment_failure_502_witness :
    orderAssemblyService skuDownEnv (some demoKey) (.parsed invalidSkuPayload) =
      { status := 502,
        body := .failure "Failed to enrich item with SKU INVALID_SKU"
          "Request failed with status code 404" } :=
  enrichment_failure_502 skuDownEnv (some demoKey)
    { name := "Test Client", createdAtMs := epoch2025_01_01, expiresAtMs := none }
    invalidSkuPayload [demoItem] invalidSkuItem [] "Request failed with status code 404"
    rfl rfl rfl
    (by intro it hit
        simp only [List.mem_singleton] at hit
        subst hit
        exact ⟨_, rfl⟩)
    rfl

/-- C7: publish serializes the assembled order as the message body with
exactly the two attributes carrying the order and customer identifiers;
the outcome depends only on the single transport attempt the source makes
(no retry); and a transport failure surfaces as 503 with error
"Failed to publish order to queue". -/
theorem publish_contract (order : EnrichedOrder) :
    ((sqsMessageParams order).messageBody = stringifyJ (enrichedOrderToJson order) ∧
     (sqsMessageParams order).queueUrl = QUEUE_URL ∧
     (sqsMessageParams order).messageAttributes =
       [{ name := "order_id", stringValue := order.order_id, dataType := "String" },
        { name := "customer_id", stringValue := order.customer_id, dataType := "String" }])
    ∧ (∀ send send2 : Nat → SQSParams → Except String String,
        (∀ p, send 0 p = send2 0 p) →
        publishToSQS send order = publishToSQS send2 order)
    ∧ (∀ (env : Env) (apiKey : Option String) (kd : KeyData) (body : JValue)
          (es : List EnrichedItem) (cause : String),
        authenticateApiKey env.nowMs apiKey = .ok kd →
        validateOrderPayloadE env.dateParseOk body = .ok [] →
        enrichOrderWithMetadata env.catalog (body.get "items").asArray = .ok es →
        (∀ p, env.sqsSend 0 p = .error cause) →
        orderAssemblyService env apiKey (.parsed body) =
          { status := 503, body := .failure "Failed to publish order to queue" cause }) := by
  refine ⟨⟨rfl, rfl, rfl⟩, ?_, ?_⟩
  · intro send send2 h
    simp [publishToSQS, h]
  · intro env apiKey kd body es cause hauth hval henr hsend
    simp [orderAssemblyService, assembleOrderHandler, hauth, hval, henr,
      publishToSQS, hsend]

/-- Witness for C7: the spec's concrete scenario with the queue transport
unreachable yields 503 with the transport cause. -/
theorem publish_contract_witness :
    orderAssemblyService queueDownEnv (some demoKey) (.parsed demoPayload) =
      { status := 503,
        body := .failure "Failed to publish order to queue"
          "connect ECONNREFUSED 127.0.0.1:4566" } :=
  (publish_contract
    { order_id := .jstr "O1", customer_id := .jstr "C1", items := [],
      order_ts := .jstr "2025-01-31T10:00:00Z",
      assembled_ts := "2025-01-31T10:00:01.000Z",
      assembly_id := uuidv4 0 }).2.2 queueDownEnv (some demoKey)
    { name := "Test Client", createdAtMs := epoch2025_01_01, expiresAtMs := none }
    demoPayload
    [{ sku := .jstr "SKU100", quantity := .jnum 2,
       metadata := .jobj [("sku", .jstr "SKU100"), ("name", .jstr "Widget")] }]
    "connect ECONNREFUSED 127.0.0.1:4566" rfl rfl rfl (fun _ => rfl)

/-- C8 counterexample: a body that fails JSON parsing is answered 500 by
the error-handling middleware, not 400 as the claim states. -/
theorem malformed_json_not_400 :
    (orderAssemblyService demoEnv (some demoKey)
      (.malformed "Unexpected token i in JSON at position 0")).status = 500 ∧
    (500 : Nat) ≠ 400 :=
  ⟨rfl, by decide⟩

/-- C8 as amended: a request whose body cannot be parsed into a structured
document is reported without structural detail through the error-handling
middleware as 500 with error "Internal server error" and the parser's
message as details — the parse failure precedes authentication and
validation. -/
theorem malformed_json_500 (env : Env) (apiKey : Option String) (msg : String) :
    orderAssemblyService env apiKey (.malformed msg) =
      { status := 500, body := .failure "Internal server error" msg } := rfl

/-- C9: processing is not idempotent: two invocations with the same valid
payload, each with its own fresh random draw, both succeed and carry their
own assembly identifiers; when the freshly generated identifiers differ,
the two responses carry two distinct `assembly_id` values. -/
theorem fresh_assembly_ids (env1 env2 : Env) (apiKey : Option String)
    (kd1 kd2 : KeyData) (body : JValue) (m1 m2 : JValue → JValue)
    (msgId1 msgId2 : String)
    (hauth1 : authenticateApiKey env1.nowMs apiKey = .ok kd1)
    (hauth2 : authenticateApiKey env2.nowMs apiKey = .ok kd2)
    (hval1 : validateOrderPayloadE env1.dateParseOk body = .ok [])
    (hval2 : validateOrderPayloadE env2.dateParseOk body = .ok [])
    (hcat1 : ∀ it ∈ (body.get "items").asArray, env1.catalog (skuKey it) = .ok (m1 it))
    (hcat2 : ∀ it ∈ (body.get "items").asArray, env2.catalog (skuKey it) = .ok (m2 it))
    (hsend1 : ∀ p, env1.sqsSend 0 p = .ok msgId1)
    (hsend2 : ∀ p, env2.sqsSend 0 p = .ok msgId2)
    (hrand : uuidv4 env1.rand ≠ uuidv4 env2.rand) :
    (orderAssemblyService env1 apiKey (.parsed body)).status = 200 ∧
    (orderAssemblyService env2 apiKey (.parsed body)).status = 200 ∧
    assemblyIdOf (orderAssemblyService env1 apiKey (.parsed body)) =
      some (uuidv4 env1.rand) ∧
    assemblyIdOf (orderAssemblyService env2 apiKey (.parsed body)) =
      some (uuidv4 env2.rand) ∧
    assemblyIdOf (orderAssemblyService env1 apiKey (.parsed body)) ≠
      assemblyIdOf (orderAssemblyService env2 apiKey (.parsed body)) := by
  have henr1 := enrich_all_ok env1.catalog m1 (body.get "items").asArray hcat1
  have henr2 := enrich_all_ok env2.catalog m2 (body.get "items").asArray hcat2
  have h1 : orderAssemblyService env1 apiKey (.parsed body) =
      { status := 200,
        body := .success true (body.get "order_id") (uuidv4 env1.rand)
          "Order assembled and published successfully" msgId1 } := by
    simp [orderAssemblyService, assembleOrderHandler, hauth1, hval1, henr1,
      publishToSQS, hsend1]
  have h2 : orderAssemblyService env2 apiKey (.parsed body) =
      { status := 200,
        body := .success true (body.get "order_id") (uuidv4 env2.rand)
          "Order assembled and published successfully" msgId2 } := by
    simp [orderAssemblyService, assembleOrderHandler, hauth2, hval2, henr2,
      publishToSQS, hsend2]
  rw [h1, h2]
  refine ⟨rfl, rfl, rfl, rfl, ?_⟩
  simpa [assemblyIdOf] using hrand

/-- Witness for C9: two invocations of the demo scenario with random draws
0 and 1 both succeed and receive distinct assembly identifiers. -/
theorem fresh_assembly_ids_witness :
    (orderAssemblyService demoEnv (some demoKey) (.parsed demoPayload)).status = 200 ∧
    (orderAssemblyService demoEnv2 (some demoKey) (.parsed demoPayload)).status = 200 ∧
    assemblyIdOf (orderAssemblyService demoEnv (some demoKey) (.parsed demoPayload)) =
      some (uuidv4 0) ∧
    assemblyIdOf (orderAssemblyService demoEnv2 (some demoKey) (.parsed demoPayload)) =
      some (uuidv4 1) ∧
    assemblyIdOf (orderAssemblyService demoEnv (some demoKey) (.parsed demoPayload)) ≠
      assemblyIdOf (orderAssemblyService demoEnv2 (some demoKey) (.parsed demoPayload)) :=
  fresh_assembly_ids demoEnv demoEnv2 (some demoKey)
    { name := "Test Client", createdAtMs := epoch2025_01_01, expiresAtMs := none }
    { name := "Test Client", createdAtMs := epoch2025_01_01, expiresAtMs := none }
    demoPayload
    (fun it => .jobj [("sku", .jstr (jsToStr (it.get "sku"))), ("name", .jstr "Widget")])
    (fun it => .jobj [("sku", .jstr (jsToStr (it.get "sku"))), ("name", .jstr "Widget")])
    "demo-message-id" "demo-message-id" rfl rfl rfl rfl
    (fun _ _ => rfl) (fun _ _ => rfl) (fun _ => rfl) (fun _ => rfl) (by decide)

end OrderAssembly
